import Mathlib

/-!
Shallow embedding of `coldcore/ui.py`, the interactive terminal front-end of the
coldcore watch-only wallet manager.

Pure fragments of the Python source are translated into executable Lean
definitions; stateful loops become explicit state-passing step functions folded
over lists of observed inputs (key presses, RPC poll outcomes).  Python
`Decimal` and numeric RPC values are modelled as `ℚ`, Python ints as `Int` or
`Nat`, Python dicts as functions into `Option`, and raising code as `Option`
results (`none` marks the raised exception).
-/

namespace Coldcore

/-! ## Scene actions (ui.py 139–140, 895–898)

`GoHome = Action(); GoSetup = Action(); GoDashboard = Action(); Quit = Action()`
— four distinct sentinel instances, modelled as a four-constructor enum. -/

/-- The four scene-transition tokens of ui.py. -/
inductive Action where
  | GoHome
  | GoSetup
  | GoDashboard
  | Quit
deriving DecidableEq, Repr

/-! ## Key codes

`ord("q") = 113`, `ord("j") = 106`, `ord("k") = 107`, `ord("n") = 110`,
`curses.KEY_DOWN = 258`, `curses.KEY_UP = 259`, `curses.KEY_ENTER = 343`,
newline `10`, carriage return `13`, and `getch` timeout sentinel `-1`. -/

def KEY_DOWN : Int := 258
def KEY_UP : Int := 259
def KEY_ENTER : Int := 343

/-! ## Home scene (ui.py 541–640) -/

/-- `MenuItem(namedtuple("MenuItem", "idx,title,action"))` (ui.py 163). -/
structure MenuItem where
  idx : Nat
  title : String
  action : Action
deriving DecidableEq, Repr

/-- `self.setup_item = MenuItem(0, "start setup", GoSetup)` (ui.py 545). -/
def setup_item : MenuItem := ⟨0, "start setup", Action.GoSetup⟩

/-- `self.dashboard_item = MenuItem(1, "dashboard", GoDashboard)` (ui.py 546). -/
def dashboard_item : MenuItem := ⟨1, "dashboard", Action.GoDashboard⟩

/-- `self.send_item = MenuItem(2, "send", GoHome)` (ui.py 547). -/
def send_item : MenuItem := ⟨2, "send", Action.GoHome⟩

/-- `self.recieve_item = MenuItem(3, "receive", GoHome)` (ui.py 548). -/
def recieve_item : MenuItem := ⟨3, "receive", Action.GoHome⟩

/-- `self.mitems = [setup, dashboard, send, recieve]` (ui.py 550–555). -/
def mitems : List MenuItem := [setup_item, dashboard_item, send_item, recieve_item]

/-- The cursor-update fragment of `HomeScene.draw` (ui.py 571–574):

    if k in [curses.KEY_DOWN, ord("j")] and self.midx < (len(self.mitems) - 1):
        self.midx += 1
    elif k in [curses.KEY_UP, ord("k")] and self.midx > 0:
        self.midx -= 1
-/
def homeNavStep (midx : Nat) (k : Int) : Nat :=
  if (k = KEY_DOWN ∨ k = 106) ∧ midx < mitems.length - 1 then midx + 1
  else if (k = KEY_UP ∨ k = 107) ∧ midx > 0 then midx - 1
  else midx

/-- One call of `HomeScene.draw` on input key `k` (ui.py 560–640), with scene
state `(midx, mchoiceIdx)` (the cursor and the index of `self.mchoice`, which is
assigned `self.mitems[self.midx]` only after navigation, ui.py 576).  `inr`
carries an early return `(‑1, action)` for the quit / confirm keys; `inl`
carries the updated state when the scene re-renders and blocks for the next
key, returning `(getch(), GoHome)`. -/
def homeDrawStep (midx mchoiceIdx : Nat) (k : Int) : (Nat × Nat) ⊕ (Int × Action) :=
  if k = 113 then Sum.inr (-1, Action.Quit)
  else if k = KEY_ENTER ∨ k = 10 ∨ k = 13 then
    Sum.inr (-1, (mitems.getD mchoiceIdx setup_item).action)
  else
    let m := homeNavStep midx k
    Sum.inl (m, m)

/-- Repeated `HomeScene.draw` calls over a list of input keys: each non-exiting
call blocks for the next key and passes it to the next call (ui.py 638–640).
Returns the `(key, action)` pair of the first exiting call, or `none` when the
key list runs out first. -/
def homeRun (midx mchoiceIdx : Nat) : List Int → Option (Int × Action)
  | [] => none
  | k :: rest =>
    match homeDrawStep midx mchoiceIdx k with
    | Sum.inr r => some r
    | Sum.inl st => homeRun st.1 st.2 rest

/-- Which menu items `HomeScene.draw` renders (ui.py 626–631):
`menu_option(setup)` always, and dashboard/send/receive only under
`if self.wallet_configs:` (Python truthiness: nonempty list). -/
def renderedItems (wallet_configs : List String) : List MenuItem :=
  setup_item :: (if wallet_configs ≠ [] then [dashboard_item, send_item, recieve_item] else [])

/-! ## Dashboard balance panel (ui.py 723–765) -/

/-- A display UTXO: `{address, amount, confirmation count, txid}` (spec §3;
produced by the external `controller.get_utxos` collaborator).  `amount` is a
Python `Decimal`, modelled as `ℚ`. -/
structure Utxo where
  address : String
  num_confs : Int
  amount : ℚ
  txid : String
deriving DecidableEq, Repr

/-- Stable insertion of `a` into `l` keeping every earlier element `b` with
`le b a` before `a` — the insertion step of a stable ascending sort. -/
def stableInsert (le : α → α → Bool) (a : α) : List α → List α
  | [] => [a]
  | b :: l => if le b a then b :: stableInsert le a l else a :: b :: l

/-- Model of Python's `sorted` builtin: a stable ascending sort with respect to
a boolean `≤` test (Python's sort is stable; any stable ascending sort computes
the same list). -/
def pySorted (le : α → α → Bool) (l : List α) : List α :=
  l.foldl (fun acc a => stableInsert le a acc) []

/-- Python slice `l[-n:]` for a nonnegative `n`: the whole list when `n = 0`
(since `-0 == 0`, so the slice is `l[0:]`), otherwise the last `n` elements. -/
def pyLastSlice (n : Nat) (l : List α) : List α :=
  if n = 0 then l else l.drop (l.length - n)

/-- `sorted(self.utxos.values(), key=lambda u: -u.num_confs)[-max_lines:]`
(ui.py 741–743): sort ascending by negated confirmation count (i.e. descending
confirmations, ties kept stable), then keep only the last `max_lines` rows. -/
def sorted_utxos (utxos : List Utxo) (max_lines : Nat) : List Utxo :=
  pyLastSlice max_lines (pySorted (fun a b => decide (-a.num_confs ≤ -b.num_confs)) utxos)

/-- `total_bal = f"{sum([u.amount for u in sorted_utxos])}"` (ui.py 744): the
number rendered as the balance panel's running total. -/
def total_bal (utxos : List Utxo) (max_lines : Nat) : ℚ :=
  ((sorted_utxos utxos max_lines).map (fun u => u.amount)).sum

/-! ## UTXO poller (ui.py 878–892) -/

/-- The shared `self.utxos` dict, keyed by address. -/
def UtxoDict : Type := String → Option Utxo

/-- `utxos.clear()` (ui.py 886). -/
def dict_clear (_ : UtxoDict) : UtxoDict := fun _ => none

/-- `utxos.update(new_utxos)` (ui.py 887): entries of `new_utxos` override. -/
def dict_update (d new : UtxoDict) : UtxoDict :=
  fun k => match new k with
    | some v => some v
    | none => d k

/-- The body of `_get_utxo_lines` under `utxos_lock` for one poll tick
(ui.py 885–887): `utxos.clear(); utxos.update(new_utxos)` where `new_utxos =
controller.get_utxos(rpcw)` is the collaborator's latest response. -/
def _get_utxo_lines_tick (utxos new_utxos : UtxoDict) : UtxoDict :=
  dict_update (dict_clear utxos) new_utxos

/-- The UTXO poller run over a list of successive collaborator responses. -/
def runUtxoPoller (utxos : UtxoDict) (responses : List UtxoDict) : UtxoDict :=
  responses.foldl _get_utxo_lines_tick utxos

/-! ## Block poller (ui.py 836–875) -/

/-- `@dataclass class Block` (ui.py 836–843).  `time_saw` (a `datetime`) is
modelled as a `Nat` timestamp; the float fee/subsidy statistics as `ℚ`. -/
structure Block where
  hash : String
  height : Nat
  time_saw : Nat
  median_fee : ℚ
  subsidy : ℚ
  txs : Nat
deriving DecidableEq, Repr

/-- One iteration's observations in `_get_new_blocks` (ui.py 855–868): the
`rpc.getbestblockhash()` answer, the `rpc.getblockstats(saw)` fields read, and
`datetime.datetime.now()`. -/
structure BlockObs where
  besthash : String
  stats_height : Nat
  stats_feerate : ℚ
  stats_subsidy : ℚ
  stats_txs : Nat
  now : Nat
deriving DecidableEq, Repr

/-- The loop state of `_get_new_blocks`: the shared `blocks` list and the local
`last_saw` (initially `None`, ui.py 852). -/
structure BlockPollerState where
  blocks : List Block
  last_saw : Option String
deriving DecidableEq, Repr

/-- One iteration of `_get_new_blocks` (ui.py 854–870): append a `Block` built
from the stats and update `last_saw`, but only when `saw != last_saw`. -/
def _get_new_blocks_step (st : BlockPollerState) (obs : BlockObs) : BlockPollerState :=
  if some obs.besthash ≠ st.last_saw then
    { blocks := st.blocks ++
        [⟨obs.besthash, obs.stats_height, obs.now, obs.stats_feerate,
          obs.stats_subsidy, obs.stats_txs⟩],
      last_saw := some obs.besthash }
  else st

/-- The block poller started on the dashboard's empty `self.blocks` list
(ui.py 656, 673–678), run over a list of per-iteration observations. -/
def runBlockPoller (obss : List BlockObs) : BlockPollerState :=
  obss.foldl _get_new_blocks_step ⟨[], none⟩

/-! ## Chain-sync wait (ui.py 277–285)

    chaininfo = {"verificationprogress": 0}
    while chaininfo["verificationprogress"] < 0.999:
        try:
            chaininfo = rpc.getblockchaininfo()
        except Exception:
            pass
        prog = ...; info(...)
-/

/-- The field of the `getblockchaininfo` answer the wait loop reads. -/
structure ChainInfo where
  verificationprogress : ℚ
deriving DecidableEq, Repr

/-- The initial `chaininfo = {"verificationprogress": 0}` (ui.py 278). -/
def initialChainInfo : ChainInfo := ⟨0⟩

/-- The chain-sync wait loop over a list of poll outcomes (`Except.error ()`
models a raised RPC exception, swallowed by the `except Exception: pass`
branch, which leaves `chaininfo` unchanged).  Returns the final `chaininfo`
together with the number of polls consumed, or `none` when the outcome list is
exhausted while the loop condition still holds. -/
def syncPollLoop : List (Except Unit ChainInfo) → ChainInfo → Option (ChainInfo × Nat)
  | polls, cur =>
    if cur.verificationprogress < 999/1000 then
      match polls with
      | [] => none
      | p :: rest =>
        (syncPollLoop rest (match p with | Except.ok c => c | Except.error _ => cur)).map
          (fun r => (r.1, r.2 + 1))
    else some (cur, 0)

/-! ## Onboarding wait loops: per-iteration event shape

Each `while` loop of `TermSetupScene.draw` that waits on an external condition,
transcribed as the ordered list of observable events of a single iteration:
a poll of the condition (RPC call, thread-liveness check, or filesystem check),
a `spin(...)` spinner render, a `time.sleep(...)` in milliseconds, or an
`info(...)` status line. -/

/-- One observable event inside a wait-loop iteration. -/
inductive WaitEv where
  | spin
  | sleep (ms : Nat)
  | poll
  | info
deriving DecidableEq, Repr

/-- Chain-sync wait iteration (ui.py 279–285): `rpc.getblockchaininfo()` poll
then an `info(...)` progress line — no spinner and no sleep. -/
def chain_sync_wait_iter : List WaitEv := [WaitEv.poll, WaitEv.info]

/-- public.txt wait iteration (ui.py 313–317): `spin("waiting for public.txt")`,
`time.sleep(0.1)`, then the `pubfilepath.exists()` check. -/
def public_txt_wait_iter : List WaitEv := [WaitEv.spin, WaitEv.sleep 100, WaitEv.poll]

/-- UTXO-scan wait iteration (ui.py 356–358): `scan_thread.is_alive()` guard,
`spin(...)`, `time.sleep(0.2)`. -/
def scan_wait_iter : List WaitEv := [WaitEv.poll, WaitEv.spin, WaitEv.sleep 200]

/-- Rescan-progress wait iteration (ui.py 388–391): `spin(...)`,
`time.sleep(0.5)`, `rpcw.getwalletinfo()["scanning"]`. -/
def rescan_progress_wait_iter : List WaitEv := [WaitEv.spin, WaitEv.sleep 500, WaitEv.poll]

/-- Incoming-transaction wait iteration (ui.py 416–420): `spin(...)`,
`controller.get_utxos(rpcw)` + `utxos.get(receive_addr1)`, `time.sleep(1)`. -/
def incoming_tx_wait_iter : List WaitEv := [WaitEv.spin, WaitEv.poll, WaitEv.sleep 1000]

/-- Signed-file wait iteration (ui.py 476–478): `Path(signed_filename).exists()`
guard, `spin(...)`, `time.sleep(0.5)`. -/
def signed_file_wait_iter : List WaitEv := [WaitEv.poll, WaitEv.spin, WaitEv.sleep 500]

/-- Mempool wait iteration (ui.py 494–500): `spin(...)`,
`controller.get_utxos(rpcw)` + `utxos.get(sendtoaddr)` — no sleep at all. -/
def mempool_wait_iter : List WaitEv := [WaitEv.spin, WaitEv.poll]

/-- The seven wait stages of the onboarding sequence, in source order. -/
def onboardingWaitStages : List (String × List WaitEv) :=
  [("chain-sync", chain_sync_wait_iter),
   ("public.txt", public_txt_wait_iter),
   ("scan", scan_wait_iter),
   ("rescan-progress", rescan_progress_wait_iter),
   ("incoming-tx", incoming_tx_wait_iter),
   ("signed-file", signed_file_wait_iter),
   ("mempool", mempool_wait_iter)]

/-- The sleep durations (ms) occurring in one wait-loop iteration. -/
def sleepsOf (l : List WaitEv) : List Nat :=
  l.filterMap (fun e => match e with | WaitEv.sleep ms => some ms | _ => none)

/-! ## UTXO scan stage (ui.py 347–371, 527–531) -/

/-- One entry of the scan result's `unspents` list; only the fields the
onboarding stage reads (`amount`, `height`). -/
structure Unspent where
  amount : ℚ
  height : Nat
deriving DecidableEq, Repr

/-- The value returned by `rpcw.scantxoutset(*args)` when the call succeeds. -/
structure ScanResult where
  unspents : List Unspent
deriving DecidableEq, Repr

/-- Outcome of the `rpcw.scantxoutset(*args)` RPC call: a returned result, or a
raised `socket.timeout`. -/
inductive ScanCall where
  | ok (result : ScanResult)
  | socketTimeout
deriving DecidableEq, Repr

/-- What the scan worker thread leaves behind: the `scan_result` dict's
`"result"` slot (`none` = key never set), whether `logger.exception` ran, and
whether the thread function itself re-raised. -/
structure ScanThreadOutcome where
  result : Option ScanResult
  loggedTimeout : Bool
  raised : Bool
deriving DecidableEq, Repr

/-- `_run_scantxoutset(rpcw, args, result)` (ui.py 527–531):

    try:
        result["result"] = rpcw.scantxoutset(*args)
    except socket.timeout:
        logger.exception("socket timed out during txoutsetscan (this is expected)")

The `result` dict starts empty (`scan_result = {}`, ui.py 347). -/
def _run_scantxoutset (call : ScanCall) : ScanThreadOutcome :=
  match call with
  | ScanCall.ok r => ⟨some r, false, false⟩
  | ScanCall.socketTimeout => ⟨none, true, false⟩

/-- The foreground read `scan_result["result"]["unspents"]` after the scan
thread has been joined (ui.py 363); `none` models the `KeyError` raised when
the `"result"` key was never set. -/
def readUnspents (scan_result : Option ScanResult) : Option (List Unspent) :=
  scan_result.map (fun r => r.unspents)

/-- `rescan_begin_height = min([i["height"] for i in unspents])` (ui.py 371);
Python's `min` raises `ValueError` on an empty list, modelled as `none`. -/
def rescan_begin_height (unspents : List Unspent) : Option Nat :=
  (unspents.map (fun i => i.height)).min?

/-! ## Dashboard quit handling and the session loop (ui.py 683–696, 826–833, 920–961) -/

/-- The dashboard's poller bookkeeping: the shared `stop_threads_event` flag and
one joined-flag per thread in `self.threads`. -/
structure DashPollers where
  stop_event : Bool
  joined : List Bool
deriving DecidableEq, Repr

/-- `DashboardScene.stop_threads` (ui.py 683–686): `stop_threads_event.set()`
then `thread.join()` for every started poller thread. -/
def stop_threads (d : DashPollers) : DashPollers :=
  { stop_event := true, joined := d.joined.map (fun _ => true) }

/-- The tail of `DashboardScene._draw` (ui.py 826–833): after `getch()` returns
`next_k`, stop the pollers when `next_k == ord("q")`, and in every case return
`(next_k, GoDashboard)`. -/
def dashboardKeyResult (d : DashPollers) (next_k : Int) : DashPollers × (Int × Action) :=
  (if next_k = 113 then stop_threads d else d, (next_k, Action.GoDashboard))

/-- The `draw_menu` loop guard evaluated after a scene draw (ui.py 960–961):
`if k == ord("q") or action == Quit: break` — `true` iff the session loop goes
on to another iteration. -/
def sessionContinues (k : Int) (action : Action) : Bool :=
  if k = 113 ∨ action = Action.Quit then false else true

/-- Which scene the `draw_menu` loop dispatches to next, given the `(k, action)`
pair a scene draw returned: `none` when the loop breaks (session over),
otherwise the scene selected by `action` (ui.py 951–961). -/
def nextScene (k : Int) (action : Action) : Option Action :=
  if sessionContinues k action then some action else none

/-! ## Concrete sample data used by witnesses and counterexamples -/

/-- Sample UTXO with 10 confirmations and amount 1. -/
def cex_u1 : Utxo := ⟨"addr1", 10, 1, "t1"⟩

/-- Sample UTXO with 5 confirmations and amount 2. -/
def cex_u2 : Utxo := ⟨"addr2", 5, 2, "t2"⟩

/-- Sample UTXO with 1 confirmation and amount 4. -/
def cex_u3 : Utxo := ⟨"addr3", 1, 4, "t3"⟩

/-- Sample UTXO held at address `addrA`. -/
def sampleUtxoA : Utxo := ⟨"addrA", 7, 1, "txA"⟩

/-- A collaborator response holding exactly one UTXO, at `addrA`. -/
def sampleDict1 : UtxoDict := fun k => if k = "addrA" then some sampleUtxoA else none

/-- A collaborator response holding no UTXOs. -/
def sampleDict2 : UtxoDict := fun _ => none

/-- The empty shared UTXO container the dashboard starts with (ui.py 652). -/
def emptyUtxoDict : UtxoDict := fun _ => none

end Coldcore

namespace Coldcore

/-! # Theorems -/

/-! ## Helper lemmas (shared) -/

/-- Stable insertion permutes: inserting `a` yields a permutation of `a :: l`. -/
theorem stableInsert_perm (le : α → α → Bool) (a : α) (l : List α) :
    (stableInsert le a l).Perm (a :: l) := by
  induction l with
  | nil => simp [stableInsert]
  | cons b l ih =>
    by_cases h : le b a
    · simpa [stableInsert, h] using ((ih.cons b).trans (List.Perm.swap a b l))
    · simp [stableInsert, h]

/-- The `pySorted` fold permutes: the accumulator plus the remaining input. -/
theorem pySorted_loop_perm (le : α → α → Bool) (l : List α) :
    ∀ acc : List α, (l.foldl (fun acc a => stableInsert le a acc) acc).Perm (acc ++ l) := by
  induction l with
  | nil => intro acc; simp
  | cons a l ih =>
    intro acc
    have h1 := ih (stableInsert le a acc)
    have h2 : (stableInsert le a acc ++ l).Perm ((a :: acc) ++ l) :=
      (stableInsert_perm le a acc).append_right l
    have h3 : ((a :: acc) ++ l).Perm (acc ++ a :: l) := by
      simpa using List.perm_middle.symm
    exact (List.foldl_cons _ _ ▸ h1.trans (h2.trans h3))

/-- `pySorted` returns a permutation of its input. -/
theorem pySorted_perm (le : α → α → Bool) (l : List α) : (pySorted le l).Perm l := by
  simpa using pySorted_loop_perm le l []

/-- One navigation step keeps the cursor at most at the last item's index. -/
theorem homeNavStep_le (m : Nat) (k : Int) (h : m ≤ mitems.length - 1) :
    homeNavStep m k ≤ mitems.length - 1 := by
  unfold homeNavStep
  split
  · next hc => exact hc.2
  · split
    · exact le_trans (Nat.sub_le m 1) h
    · exact h

/-- A `_get_utxo_lines` tick replaces the container with the response. -/
theorem utxo_tick_eq (d new : UtxoDict) : _get_utxo_lines_tick d new = new := by
  funext k
  show (match new k with | some v => some v | none => (fun _ => none : UtxoDict) k) = new k
  cases new k <;> rfl

/-- Folding `_get_utxo_lines_tick` lands on the last response. -/
theorem runUtxoPoller_eq_getLast (init : UtxoDict) :
    ∀ (responses : List UtxoDict) (h : responses ≠ []),
      runUtxoPoller init responses = responses.getLast h := by
  intro responses
  induction responses generalizing init with
  | nil => intro h; exact absurd rfl h
  | cons r rest ih =>
    intro h
    cases rest with
    | nil => simp [runUtxoPoller, utxo_tick_eq]
    | cons r2 rest2 =>
      have : runUtxoPoller init (r :: r2 :: rest2) =
          runUtxoPoller (_get_utxo_lines_tick init r) (r2 :: rest2) := rfl
      rw [this, ih (_get_utxo_lines_tick init r) (by simp)]
      exact (List.getLast_cons (List.cons_ne_nil r2 rest2)).symm

/-- The block poller's loop invariant: adjacent recorded blocks have distinct
hashes, and `last_saw` is the hash of the most recently appended block (or
`none` while nothing has been appended). -/
def BlockInv (st : BlockPollerState) : Prop :=
  st.blocks.Chain' (fun a b => a.hash ≠ b.hash) ∧
  ((st.last_saw = none ∧ st.blocks = []) ∨
   (∃ l, st.blocks.getLast? = some l ∧ st.last_saw = some l.hash))

/-- `_get_new_blocks_step` preserves the block poller invariant. -/
theorem blockInv_step (st : BlockPollerState) (obs : BlockObs) (hinv : BlockInv st) :
    BlockInv (_get_new_blocks_step st obs) := by
  obtain ⟨hchain, hlast⟩ := hinv
  unfold _get_new_blocks_step
  split
  · next hne =>
    rcases hlast with ⟨hnone, hnil⟩ | ⟨l, hget, hsaw⟩
    · refine ⟨?_, Or.inr ⟨⟨obs.besthash, obs.stats_height, obs.now, obs.stats_feerate,
        obs.stats_subsidy, obs.stats_txs⟩, ?_, rfl⟩⟩
      · simp [hnil, List.chain'_singleton]
      · simp [hnil]
    · refine ⟨?_, Or.inr ⟨⟨obs.besthash, obs.stats_height, obs.now, obs.stats_feerate,
        obs.stats_subsidy, obs.stats_txs⟩, List.getLast?_concat _, rfl⟩⟩
      rw [List.chain'_append]
      refine ⟨hchain, List.chain'_singleton _, ?_⟩
      intro x hx y hy
      rw [hget] at hx
      simp only [List.head?_cons, Option.mem_def, Option.some.injEq] at hx hy
      subst hx; subst hy
      intro heq
      exact hne (by simp [hsaw, heq])
  · exact ⟨hchain, hlast⟩

/-- The invariant holds for every run of the block poller. -/
theorem blockInv_run (obss : List BlockObs) : BlockInv (runBlockPoller obss) := by
  have base : BlockInv ⟨[], none⟩ := ⟨List.chain'_nil, Or.inl ⟨rfl, rfl⟩⟩
  rw [runBlockPoller]
  generalize hst : (⟨[], none⟩ : BlockPollerState) = st at base
  clear hst
  induction obss generalizing st with
  | nil => exact base
  | cons obs obss ih => exact ih _ (blockInv_step st obs base)

/-- A single block poller step never shrinks the recorded block list. -/
theorem blockStep_length_le (st : BlockPollerState) (obs : BlockObs) :
    st.blocks.length ≤ (_get_new_blocks_step st obs).blocks.length := by
  unfold _get_new_blocks_step
  split
  · simp
  · exact le_refl _

/-! ## C1 — onboarding UTXO-scan stage and socket timeouts -/

/-- C1 (code bug): when `rpcw.scantxoutset` raises `socket.timeout`,
`_run_scantxoutset` logs the error and completes without re-raising (so the
foreground's join-wait does finish), but it never sets `scan_result["result"]`;
the foreground's subsequent read of the unspents then fails (`KeyError`,
modelled as `none`) instead of reporting the task's result as success.  The
read succeeds exactly when the call returned a result without raising. -/
theorem scan_timeout_result_read_fails :
    (_run_scantxoutset ScanCall.socketTimeout).loggedTimeout = true ∧
    (_run_scantxoutset ScanCall.socketTimeout).raised = false ∧
    readUnspents (_run_scantxoutset ScanCall.socketTimeout).result = none ∧
    ∀ r : ScanResult,
      readUnspents (_run_scantxoutset (ScanCall.ok r)).result = some r.unspents :=
  ⟨rfl, rfl, rfl, fun _ => rfl⟩

/-! ## C3 — quit key in the Dashboard scene -/

/-- C3 counterexample: with pollers running and the quit key `113` pressed, the
dashboard returns `(113, GoDashboard)`, and the `draw_menu` loop guard then
breaks the session loop (`nextScene = none`): control does not return to the
Home scene. -/
theorem dashboard_quit_not_home_cex :
    (dashboardKeyResult ⟨false, [false, false]⟩ 113).2 = (113, Action.GoDashboard) ∧
    nextScene 113 Action.GoDashboard = none ∧
    (nextScene 113 Action.GoDashboard ≠ some Action.GoHome) := by
  refine ⟨rfl, rfl, by decide⟩

/-- C3 (amended): on the quit key the dashboard does first stop all background
pollers — the stop signal is set and every poller thread is joined — before
returning `(quit-key, GoDashboard)`; but the session loop then terminates
(the returned key is the quit character), rather than returning control to the
Home scene. -/
theorem dashboard_quit_stops_pollers_then_session_ends (d : DashPollers) (next_k : Int)
    (h : next_k = 113) :
    (dashboardKeyResult d next_k).1.stop_event = true ∧
    (∀ j ∈ (dashboardKeyResult d next_k).1.joined, j = true) ∧
    (dashboardKeyResult d next_k).2 = (next_k, Action.GoDashboard) ∧
    nextScene (dashboardKeyResult d next_k).2.1 (dashboardKeyResult d next_k).2.2 = none := by
  subst h
  refine ⟨rfl, ?_, rfl, rfl⟩
  intro j hj
  have : (dashboardKeyResult d 113).1.joined = d.joined.map (fun _ => true) := rfl
  rw [this] at hj
  obtain ⟨a, _, ha⟩ := List.mem_map.mp hj
  exact ha.symm

/-- C3 witness: the amended theorem at the concrete poller state with two
running threads and the quit key. -/
theorem dashboard_quit_stops_pollers_then_session_ends_witness :
    (dashboardKeyResult ⟨false, [false, false, false]⟩ 113).1.stop_event = true ∧
    (∀ j ∈ (dashboardKeyResult ⟨false, [false, false, false]⟩ 113).1.joined, j = true) ∧
    (dashboardKeyResult ⟨false, [false, false, false]⟩ 113).2 = (113, Action.GoDashboard) ∧
    nextScene (dashboardKeyResult ⟨false, [false, false, false]⟩ 113).2.1
      (dashboardKeyResult ⟨false, [false, false, false]⟩ 113).2.2 = none :=
  dashboard_quit_stops_pollers_then_session_ends ⟨false, [false, false, false]⟩ 113 rfl

/-! ## C5 — Home scene with no wallets configured -/

/-- C5 counterexample: with no wallets configured only the "start setup" item
is rendered, yet pressing down (`j` = 106) then confirm (13) returns the hidden
dashboard item's action — the action returned is not the setup action. -/
theorem home_hidden_item_selectable_cex :
    renderedItems [] = [setup_item] ∧
    homeRun 0 0 [106, 13] = some (-1, Action.GoDashboard) ∧
    (Action.GoDashboard ≠ Action.GoSetup) := by
  refine ⟨rfl, rfl, by decide⟩

/-- Confirm after any run of pure navigation keys returns the action of the
item under the cursor, whether rendered or not. -/
theorem homeRun_nav_confirm (navkeys : List Int)
    (hnav : ∀ k ∈ navkeys, k ≠ 113 ∧ ¬(k = KEY_ENTER ∨ k = 10 ∨ k = 13)) :
    ∀ m : Nat, homeRun m m (navkeys ++ [13]) =
      some (-1, (mitems.getD (List.foldl homeNavStep m navkeys) setup_item).action) := by
  induction navkeys with
  | nil =>
    intro m
    show homeRun m m [13] = _
    simp [homeRun, homeDrawStep]
  | cons k ks ih =>
    intro m
    obtain ⟨hq, he⟩ := hnav k (by simp)
    have hstep : homeDrawStep m m k = Sum.inl (homeNavStep m k, homeNavStep m k) := by
      unfold homeDrawStep
      rw [if_neg hq, if_neg he]
    show homeRun m m (k :: (ks ++ [13])) = _
    rw [homeRun, hstep]
    exact ih (fun k hk => hnav k (by simp [hk])) (homeNavStep m k)

/-- C5 (amended): when no wallets are configured, only the "start setup" item
is drawn, but the menu's item list itself is not filtered: the cursor still
ranges over all four items and confirm returns the selected item's action, so
hidden items (dashboard, send, receive) remain selectable; the setup action is
returned only when the cursor still rests on item 0. -/
theorem home_confirm_returns_cursor_item (navkeys : List Int)
    (hnav : ∀ k ∈ navkeys, k ≠ 113 ∧ ¬(k = KEY_ENTER ∨ k = 10 ∨ k = 13)) :
    renderedItems [] = [setup_item] ∧
    homeRun 0 0 (navkeys ++ [13]) =
      some (-1, (mitems.getD (List.foldl homeNavStep 0 navkeys) setup_item).action) :=
  ⟨rfl, homeRun_nav_confirm navkeys hnav 0⟩

/-- C5 witness: the amended theorem at the concrete key sequence `j`, confirm. -/
theorem home_confirm_returns_cursor_item_witness :
    renderedItems [] = [setup_item] ∧
    homeRun 0 0 ([106] ++ [13]) =
      some (-1, (mitems.getD (List.foldl homeNavStep 0 [106]) setup_item).action) :=
  home_confirm_returns_cursor_item [106] (by decide)

/-! ## C9 — Home cursor bounds -/

/-- C9: for every sequence of keys the Home cursor stays within
`[0, itemCount-1]`; a down/advance key increments it clamped to the last item,
an up/back key decrements it clamped to 0, and every other key leaves it
unchanged. -/
theorem home_cursor_bounds (start : Nat) (hstart : start ≤ mitems.length - 1)
    (ks : List Int) :
    List.foldl homeNavStep start ks ≤ mitems.length - 1 ∧
    (∀ m : Nat, ∀ k : Int, m ≤ mitems.length - 1 → (k = KEY_DOWN ∨ k = 106) →
      homeNavStep m k = min (m + 1) (mitems.length - 1)) ∧
    (∀ m : Nat, ∀ k : Int, (k = KEY_UP ∨ k = 107) → homeNavStep m k = m - 1) ∧
    (∀ m : Nat, ∀ k : Int, ¬(k = KEY_DOWN ∨ k = 106) → ¬(k = KEY_UP ∨ k = 107) →
      homeNavStep m k = m) := by
  refine ⟨?_, ?_, ?_, ?_⟩
  · induction ks generalizing start with
    | nil => exact hstart
    | cons k ks ih => exact ih (homeNavStep start k) (homeNavStep_le start k hstart)
  · intro m k hm hk
    have hku : ¬(k = KEY_UP ∨ k = 107) := by
      rcases hk with rfl | rfl <;> decide
    unfold homeNavStep
    by_cases hlt : m < mitems.length - 1
    · rw [if_pos ⟨hk, hlt⟩]
      have hlt3 : m < 3 := hlt
      show m + 1 = min (m + 1) 3
      omega
    · rw [if_neg (fun hc => hlt hc.2), if_neg (fun hc => hku hc.1)]
      have hnlt : ¬ m < 3 := hlt
      have hm3 : m ≤ 3 := hm
      show m = min (m + 1) 3
      omega
  · intro m k hk
    have hkd : ¬(k = KEY_DOWN ∨ k = 106) := by
      rcases hk with rfl | rfl <;> decide
    unfold homeNavStep
    rw [if_neg (fun hc => hkd hc.1)]
    by_cases hpos : m > 0
    · rw [if_pos ⟨hk, hpos⟩]
    · rw [if_neg (fun hc => hpos hc.2)]
      omega
  · intro m k hdown hup
    unfold homeNavStep
    rw [if_neg (fun hc => hdown hc.1), if_neg (fun hc => hup hc.1)]

/-- C9 witness: the bound theorem at cursor 0 and a concrete key sequence of
four downs, one up and one unrelated key. -/
theorem home_cursor_bounds_witness :
    (0 : Nat) ≤ mitems.length - 1 ∧
    List.foldl homeNavStep 0 [258, 258, 258, 258, 107, 99] ≤ mitems.length - 1 :=
  ⟨Nat.zero_le _, (home_cursor_bounds 0 (Nat.zero_le _) [258, 258, 258, 258, 107, 99]).1⟩

/-! ## C10 — rescan start height needs a nonempty unspents list -/

/-- C10: the rescan stage's start height is `min` over the scan's unspents
heights, which is undefined on an empty list (`none`, the raised `ValueError`)
— a wallet whose scan found zero UTXOs cannot proceed past this statement —
and on a nonempty list it is the minimum of the heights. -/
theorem rescan_begin_height_requires_unspents (us : List Unspent) :
    (rescan_begin_height [] = none) ∧
    (rescan_begin_height us = none ↔ us = []) ∧
    (us ≠ [] → ∃ m, rescan_begin_height us = some m ∧
      m ∈ us.map (fun i => i.height) ∧ ∀ h ∈ us.map (fun i => i.height), m ≤ h) := by
  refine ⟨rfl, ?_, ?_⟩
  · rw [rescan_begin_height, List.min?_eq_none_iff, List.map_eq_nil_iff]
  · intro hne
    rcases hm : rescan_begin_height us with _ | m
    · exact absurd ((by rwa [rescan_begin_height, List.min?_eq_none_iff,
        List.map_eq_nil_iff] at hm : us = [])) hne
    · refine ⟨m, rfl, ?_⟩
      rw [rescan_begin_height] at hm
      rw [List.min?_eq_some_iff] at hm
      · exact hm
      · exact fun a => Nat.le_refl a
      · exact fun a b => min_choice a b
      · exact fun a b c => le_min_iff

/-- C10 witness: a two-element unspents list produces the minimum height, and
the empty list produces `none`. -/
theorem rescan_begin_height_requires_unspents_witness :
    (([⟨1, 5⟩, ⟨2, 3⟩] : List Unspent) ≠ []) ∧
    (∃ m, rescan_begin_height [⟨1, 5⟩, ⟨2, 3⟩] = some m ∧
      m ∈ ([⟨1, 5⟩, ⟨2, 3⟩] : List Unspent).map (fun i => i.height) ∧
      ∀ h ∈ ([⟨1, 5⟩, ⟨2, 3⟩] : List Unspent).map (fun i => i.height), m ≤ h) :=
  ⟨by decide, (rescan_begin_height_requires_unspents [⟨1, 5⟩, ⟨2, 3⟩]).2.2 (by decide)⟩

/-! ## C7 — UTXO poller full-replace semantics -/

/-- C7: after every poll tick the shared UTXO container equals exactly the
collaborator's latest returned set (full replace, no incremental merge), so a
UTXO present before a tick but absent from the latest response is gone from
the container afterwards. -/
theorem utxo_poller_full_replace (init : UtxoDict) (responses : List UtxoDict)
    (h : responses ≠ []) :
    runUtxoPoller init responses = responses.getLast h ∧
    ∀ addr : String, responses.getLast h addr = none →
      runUtxoPoller init responses addr = none := by
  refine ⟨runUtxoPoller_eq_getLast init responses h, ?_⟩
  intro addr ha
  rw [runUtxoPoller_eq_getLast init responses h]
  exact ha

/-- C7 witness: the UTXO at `addrA` present after the first response vanishes
once the second (empty) response is applied. -/
theorem utxo_poller_full_replace_witness :
    (([sampleDict1, sampleDict2] : List UtxoDict) ≠ []) ∧
    runUtxoPoller emptyUtxoDict [sampleDict1, sampleDict2] "addrA" = none :=
  ⟨by simp,
   (utxo_poller_full_replace emptyUtxoDict [sampleDict1, sampleDict2] (by simp)).2 "addrA" rfl⟩

/-! ## C8 — block poller: append-only, no consecutive duplicate tips -/

/-- C8: the block sequence produced by the block poller never holds two
consecutive entries with the same tip hash, and its length never decreases —
both for a single `_get_new_blocks` iteration from any state and across a whole
run extended by one more iteration. -/
theorem block_poller_append_only_nodup (obss : List BlockObs) :
    (runBlockPoller obss).blocks.Chain' (fun a b => a.hash ≠ b.hash) ∧
    (∀ st : BlockPollerState, ∀ obs : BlockObs,
      st.blocks.length ≤ (_get_new_blocks_step st obs).blocks.length) ∧
    ∀ obs : BlockObs,
      (runBlockPoller obss).blocks.length ≤ (runBlockPoller (obss ++ [obs])).blocks.length := by
  refine ⟨(blockInv_run obss).1, blockStep_length_le, ?_⟩
  intro obs
  show (runBlockPoller obss).blocks.length ≤
    (List.foldl _get_new_blocks_step ⟨[], none⟩ (obss ++ [obs])).blocks.length
  rw [List.foldl_append]
  exact blockStep_length_le _ obs

/-! ## C6 — chain-sync wait: threshold and transient errors -/

/-- The sync-wait loop exits immediately once the progress is at threshold. -/
theorem syncPollLoop_exit (polls : List (Except Unit ChainInfo)) (cur : ChainInfo)
    (h : ¬ cur.verificationprogress < 999/1000) :
    syncPollLoop polls cur = some (cur, 0) := by
  unfold syncPollLoop
  rw [if_neg h]

/-- Below threshold with no polls left, the loop never returns. -/
theorem syncPollLoop_below_nil (cur : ChainInfo)
    (h : cur.verificationprogress < 999/1000) :
    syncPollLoop [] cur = none := by
  unfold syncPollLoop
  rw [if_pos h]

/-- Below threshold, one poll outcome is consumed: a successful poll replaces
`chaininfo`, a raised exception leaves it unchanged. -/
theorem syncPollLoop_below_cons (p : Except Unit ChainInfo)
    (rest : List (Except Unit ChainInfo)) (cur : ChainInfo)
    (h : cur.verificationprogress < 999/1000) :
    syncPollLoop (p :: rest) cur =
      (syncPollLoop rest (match p with | Except.ok c => c | Except.error _ => cur)).map
        (fun r => (r.1, r.2 + 1)) := by
  conv_lhs => unfold syncPollLoop
  rw [if_pos h]

/-- When every poll succeeds, the loop exits exactly at the first reported
progress meeting the 0.999 threshold, having consumed exactly the polls up to
and including it. -/
theorem syncPollLoop_ok_first (infos : List ChainInfo) :
    ∀ start : ChainInfo, start.verificationprogress < 999/1000 →
    ∀ c : ChainInfo, ∀ n : Nat,
      syncPollLoop (infos.map Except.ok) start = some (c, n) →
      999/1000 ≤ c.verificationprogress ∧
      n = (infos.takeWhile (fun i => decide (i.verificationprogress < 999/1000))).length + 1 ∧
      (infos.dropWhile (fun i => decide (i.verificationprogress < 999/1000))).head? = some c := by
  induction infos with
  | nil =>
    intro start hstart c n heq
    rw [List.map_nil, syncPollLoop_below_nil start hstart] at heq
    exact absurd heq (by simp)
  | cons i infos ih =>
    intro start hstart c n heq
    rw [List.map_cons, syncPollLoop_below_cons _ _ _ hstart] at heq
    by_cases hp : i.verificationprogress < 999/1000
    · obtain ⟨r, hrec, hpair⟩ := Option.map_eq_some'.mp heq
      obtain ⟨h1, h2, h3⟩ := ih i hp r.1 r.2 (by rw [hrec])
      have hc : r.1 = c := congrArg Prod.fst hpair
      have hn : r.2 + 1 = n := congrArg Prod.snd hpair
      refine ⟨hc ▸ h1, ?_, ?_⟩
      · rw [List.takeWhile_cons, if_pos (by simpa using hp)]
        simpa [← hn] using h2
      · rw [List.dropWhile_cons, if_pos (by simpa using hp)]
        rw [← hc]
        exact h3
    · rw [syncPollLoop_exit _ _ hp] at heq
      have hci : i = c := congrArg Prod.fst (Option.some.inj heq)
      have hn1 : (1 : Nat) = n := congrArg Prod.snd (Option.some.inj heq)
      refine ⟨hci ▸ not_lt.mp hp, ?_, ?_⟩
      · rw [List.takeWhile_cons, if_neg (by simpa using hp)]
        simpa using hn1.symm
      · rw [List.dropWhile_cons, if_neg (by simpa using hp)]
        rw [List.head?_cons, hci]

/-- C6: the chain-sync wait polls until `verificationprogress` first reaches
0.999: whenever the loop returns, the final report is ≥ 0.999, the number of
polls consumed is exactly one more than the number of earlier reports (all of
which were < 0.999, so it never exits before the first reach), and the final
report is precisely the first one meeting the threshold; a raised RPC error
during a poll is swallowed and the loop simply retries on the next poll. -/
theorem sync_wait_first_reach (infos : List ChainInfo) (start : ChainInfo)
    (hstart : start.verificationprogress < 999/1000) :
    (∀ c : ChainInfo, ∀ n : Nat,
      syncPollLoop (infos.map Except.ok) start = some (c, n) →
      999/1000 ≤ c.verificationprogress ∧
      n = (infos.takeWhile (fun i => decide (i.verificationprogress < 999/1000))).length + 1 ∧
      (infos.dropWhile (fun i => decide (i.verificationprogress < 999/1000))).head? = some c) ∧
    syncPollLoop (Except.error () :: infos.map Except.ok) start =
      (syncPollLoop (infos.map Except.ok) start).map (fun r => (r.1, r.2 + 1)) :=
  ⟨syncPollLoop_ok_first infos start hstart,
   syncPollLoop_below_cons (Except.error ()) (infos.map Except.ok) start hstart⟩

/-- The sync-wait loop run on the fake client's three reports 0.5, 0.75,
0.999: it returns the third report after exactly three polls. -/
theorem syncPollLoop_three_polls :
    syncPollLoop
        ([ChainInfo.mk (1/2), ChainInfo.mk (3/4), ChainInfo.mk (999/1000)].map Except.ok)
        initialChainInfo =
      some (ChainInfo.mk (999/1000), 3) := by
  have h0 : initialChainInfo.verificationprogress < 999/1000 := by
    norm_num [initialChainInfo]
  have h1 : (ChainInfo.mk (1/2)).verificationprogress < 999/1000 := by norm_num
  have h2 : (ChainInfo.mk (3/4)).verificationprogress < 999/1000 := by norm_num
  have h3 : ¬ (ChainInfo.mk (999/1000)).verificationprogress < 999/1000 := by norm_num
  rw [List.map_cons, List.map_cons, List.map_cons, List.map_nil]
  rw [syncPollLoop_below_cons _ _ _ h0]
  dsimp only
  rw [syncPollLoop_below_cons _ _ _ h1]
  dsimp only
  rw [syncPollLoop_below_cons _ _ _ h2]
  dsimp only
  rw [syncPollLoop_exit _ _ h3]
  rfl

/-- C6 witness: the fake client reporting 0.5 → 0.75 → 0.999 over three polls
exits exactly at the third poll with the threshold-meeting report. -/
theorem sync_wait_first_reach_witness :
    initialChainInfo.verificationprogress < 999/1000 ∧
    (999/1000 ≤ (ChainInfo.mk (999/1000)).verificationprogress ∧
      3 = ([ChainInfo.mk (1/2), ChainInfo.mk (3/4), ChainInfo.mk (999/1000)].takeWhile
            (fun i => decide (i.verificationprogress < 999/1000))).length + 1 ∧
      ([ChainInfo.mk (1/2), ChainInfo.mk (3/4), ChainInfo.mk (999/1000)].dropWhile
            (fun i => decide (i.verificationprogress < 999/1000))).head? =
        some (ChainInfo.mk (999/1000))) := by
  have hs : initialChainInfo.verificationprogress < 999/1000 := by
    norm_num [initialChainInfo]
  exact ⟨hs,
    (sync_wait_first_reach
        [ChainInfo.mk (1/2), ChainInfo.mk (3/4), ChainInfo.mk (999/1000)]
        initialChainInfo hs).1
      (ChainInfo.mk (999/1000)) 3 syncPollLoop_three_polls⟩

/-! ## C2 — dashboard balance total under truncation -/

/-- C2 counterexample: three UTXOs with amounts 1, 2 and 4 but panel space for
only two rows (`max_lines = 2`): the rendered total is 6 — the sum over the
displayed (truncated) rows — while the exact sum of all three amounts is 7. -/
theorem dashboard_total_truncation_cex :
    total_bal [cex_u1, cex_u2, cex_u3] 2 = 6 ∧
    (([cex_u1, cex_u2, cex_u3].map (fun u => u.amount)).sum = 7) ∧
    (total_bal [cex_u1, cex_u2, cex_u3] 2 ≠
      ([cex_u1, cex_u2, cex_u3].map (fun u => u.amount)).sum) := by
  have hsort : sorted_utxos [cex_u1, cex_u2, cex_u3] 2 = [cex_u2, cex_u3] := by
    norm_num [sorted_utxos, pySorted, stableInsert, pyLastSlice, cex_u1, cex_u2, cex_u3]
  have h6 : total_bal [cex_u1, cex_u2, cex_u3] 2 = 6 := by
    rw [total_bal, hsort]
    norm_num [cex_u2, cex_u3]
  have h7 : (([cex_u1, cex_u2, cex_u3].map (fun u => u.amount)).sum = (7 : ℚ)) := by
    norm_num [cex_u1, cex_u2, cex_u3]
  refine ⟨h6, h7, ?_⟩
  rw [h6, h7]
  norm_num

/-- C2 (amended): the rendered total is the sum of the amounts of the rows that
are displayed (`sorted_utxos`, the last `max_lines` rows of the sorted
snapshot); it equals the exact sum of all N amounts whenever all N rows fit
(`N ≤ max_lines`, or `max_lines = 0` where the Python slice `[-0:]` keeps
everything).  The total is a pure function of the snapshot, so two consecutive
ticks with unchanged data render identical totals. -/
theorem dashboard_total_eq_sum_when_fits (utxos : List Utxo) (max_lines : Nat)
    (h : utxos.length ≤ max_lines ∨ max_lines = 0) :
    total_bal utxos max_lines = ((utxos.map (fun u => u.amount)).sum) := by
  have hperm := pySorted_perm (fun a b => decide (-a.num_confs ≤ -b.num_confs)) utxos
  have hslice : sorted_utxos utxos max_lines
      = pySorted (fun a b => decide (-a.num_confs ≤ -b.num_confs)) utxos := by
    unfold sorted_utxos pyLastSlice
    by_cases h0 : max_lines = 0
    · rw [if_pos h0]
    · rw [if_neg h0]
      rcases h with hle | h0'
      · have hlen : (pySorted (fun a b => decide (-a.num_confs ≤ -b.num_confs)) utxos).length
            = utxos.length := hperm.length_eq
        rw [hlen, Nat.sub_eq_zero_of_le hle, List.drop_zero]
      · exact absurd h0' h0
  rw [total_bal, hslice]
  exact (hperm.map (fun u => u.amount)).sum_eq

/-- C2 witness: with room for five rows, the three sample UTXOs' rendered total
equals the exact sum 7 of all amounts. -/
theorem dashboard_total_eq_sum_when_fits_witness :
    (([cex_u1, cex_u2, cex_u3] : List Utxo).length ≤ 5 ∨ (5 : Nat) = 0) ∧
    total_bal [cex_u1, cex_u2, cex_u3] 5 =
      (([cex_u1, cex_u2, cex_u3].map (fun u => u.amount)).sum) :=
  ⟨Or.inl (by decide),
   dashboard_total_eq_sum_when_fits [cex_u1, cex_u2, cex_u3] 5 (Or.inl (by decide))⟩

/-! ## C4 — wait stages and their poll intervals -/

/-- C4 counterexample: the chain-sync wait is one of the onboarding wait
stages, yet its loop iteration renders no spinner and contains no sleep at all
— it is not gated by the uniform wait-with-feedback primitive (fixed sleep of
tens to hundreds of milliseconds plus a spinner render on each poll). -/
theorem wait_stages_uniform_cex :
    (("chain-sync", chain_sync_wait_iter) ∈ onboardingWaitStages) ∧
    (WaitEv.spin ∉ chain_sync_wait_iter) ∧
    sleepsOf chain_sync_wait_iter = [] :=
  ⟨List.mem_cons_self _ _, by decide, rfl⟩

/-- C4 (amended): every one of the seven wait loops does poll its condition
each iteration, but only four follow the uniform spinner-plus-short-sleep
primitive (public.txt 100 ms, scan 200 ms, rescan-progress 500 ms, signed-file
500 ms); the incoming-transaction wait spins but sleeps a full 1000 ms, the
mempool wait spins with no sleep, and the chain-sync wait has neither spinner
nor sleep, rendering a progress info line instead. -/
theorem wait_stages_actual_intervals :
    onboardingWaitStages.length = 7 ∧
    (WaitEv.poll ∈ chain_sync_wait_iter ∧ WaitEv.poll ∈ public_txt_wait_iter ∧
     WaitEv.poll ∈ scan_wait_iter ∧ WaitEv.poll ∈ rescan_progress_wait_iter ∧
     WaitEv.poll ∈ incoming_tx_wait_iter ∧ WaitEv.poll ∈ signed_file_wait_iter ∧
     WaitEv.poll ∈ mempool_wait_iter) ∧
    (WaitEv.spin ∉ chain_sync_wait_iter ∧ WaitEv.info ∈ chain_sync_wait_iter) ∧
    (WaitEv.spin ∈ public_txt_wait_iter ∧ WaitEv.spin ∈ scan_wait_iter ∧
     WaitEv.spin ∈ rescan_progress_wait_iter ∧ WaitEv.spin ∈ incoming_tx_wait_iter ∧
     WaitEv.spin ∈ signed_file_wait_iter ∧ WaitEv.spin ∈ mempool_wait_iter) ∧
    (sleepsOf chain_sync_wait_iter = [] ∧ sleepsOf mempool_wait_iter = []) ∧
    (sleepsOf public_txt_wait_iter = [100] ∧ sleepsOf scan_wait_iter = [200] ∧
     sleepsOf rescan_progress_wait_iter = [500] ∧ sleepsOf signed_file_wait_iter = [500] ∧
     sleepsOf incoming_tx_wait_iter = [1000]) := by
  decide

end Coldcore
